import Mathlib

/-!
Verification of the time-tracker backend (src/backend/src/main.rs) against its
specification.  The first part embeds the Rust source: the `/sync` handlers,
their request/response structs as derived by serde, and the `/health` handler.
The second part models, from the specification's design sections, the sync
engine that the stub handlers stand in for (record store, change journal,
merge engine, sync coordinator), so that the spec's scenario and round-trip
properties can be settled against that design.
-/

/-- Embedding of `serde_json::Value`.  Numbers are modelled as integers: no
handler in the source performs any arithmetic on a payload value, every
payload is moved unchanged, so the numeric representation is never
consulted. -/
inductive Json where
  | null : Json
  | bool (b : Bool) : Json
  | num (n : Int) : Json
  | str (s : String) : Json
  | arr (elems : List Json) : Json
  | obj (members : List (String × Json)) : Json

/-- Embedding of `struct SyncRequest` (main.rs lines 10-16): the shape serde
deserializes a POST /sync body into.  `last_synced_at` is an `i64`; the three
data fields are raw `serde_json::Value`s. -/
structure SyncRequest where
  last_synced_at : Int
  time_entries : Json
  projects : Json
  categories : Json

/-- Embedding of `struct SyncResponse` (main.rs lines 18-24): the shape serde
serializes a /sync response from. -/
structure SyncResponse where
  last_synced_at : Int
  time_entries : Json
  projects : Json
  categories : Json

/-- The field names of `SyncRequest`, as the serde derive reads them from a
JSON body.  Taken verbatim from the struct declaration. -/
def syncRequestFieldNames : List String :=
  ["last_synced_at", "time_entries", "projects", "categories"]

/-- The field names of `SyncResponse`, as the serde derive writes them into a
JSON body.  Taken verbatim from the struct declaration. -/
def syncResponseFieldNames : List String :=
  ["last_synced_at", "time_entries", "projects", "categories"]

/-- Look up a member of a JSON object; `none` for absent keys and for
non-objects. -/
def Json.lookupKey : Json → String → Option Json
  | Json.obj members, key => (members.find? (fun m => m.fst = key)).map Prod.snd
  | _, _ => none

/-- Read a JSON value as an integer (an `i64` field for serde). -/
def Json.asInt : Json → Option Int
  | Json.num n => some n
  | _ => none

/-- The serde-derived deserializer for `SyncRequest`: every declared field
must be present (serde errors on a missing field, which axum turns into an
HTTP 400); unknown fields are ignored (serde's default). -/
def deserializeSyncRequest (body : Json) : Option SyncRequest := do
  let t ← (← body.lookupKey "last_synced_at").asInt
  let te ← body.lookupKey "time_entries"
  let pr ← body.lookupKey "projects"
  let ca ← body.lookupKey "categories"
  pure ⟨t, te, pr, ca⟩

/-- Embedding of `post_sync` (main.rs lines 64-75).  The handler's only
effectful input is `chrono::Utc::now().timestamp_millis()`, passed here as
`current_time`; it builds the response from that clock reading and the three
payload fields, ignoring the submitted `last_synced_at`. -/
def post_sync (current_time : Int) (payload : SyncRequest) : SyncResponse :=
  { last_synced_at := current_time
    time_entries := payload.time_entries
    projects := payload.projects
    categories := payload.categories }

/-- Embedding of `get_sync` (main.rs lines 51-61): a stateless handler that
returns the current clock reading and `Null` for all three data fields. -/
def get_sync (current_time : Int) : SyncResponse :=
  { last_synced_at := current_time
    time_entries := Json.null
    projects := Json.null
    categories := Json.null }

/-- The error taxonomy of the specification's §7 that a sync endpoint could
surface.  The Rust `post_sync` returns `Json<SyncResponse>` with no error
branch; this type exists so that "never returns an error" is statable. -/
inductive SyncError where
  | validation : SyncError
  | invalidWatermark : SyncError
  | staleClient : SyncError
  | concurrentConflict : SyncError
  | storage : SyncError
deriving DecidableEq, Repr

/-- The server's cross-request mutable state.  `main` wires stateless
handlers into the router and keeps no store, so the state type is trivial. -/
def StubServerState : Type := Unit

instance : DecidableEq StubServerState := fun a b =>
  match a, b with
  | Unit.unit, Unit.unit => isTrue rfl

/-- `post_sync` as a transition on the (trivial) server state, with its
result injected into the error-aware type: the Rust handler's return type
`Json<SyncResponse>` admits no error value and the handler touches no state,
so the embedding is the unconditional success. -/
def post_sync_full (st : StubServerState) (current_time : Int)
    (payload : SyncRequest) : StubServerState × Except SyncError SyncResponse :=
  (st, Except.ok (post_sync current_time payload))

/-- Embedding of `sys_info::MemInfo`, the struct returned by
`sys_info::mem_info()`; all fields are `u64` kilobyte counts, carried through
the health response without arithmetic. -/
structure MemInfo where
  total : Nat
  free : Nat
  avail : Nat
  buffers : Nat
  cached : Nat
  swap_total : Nat
  swap_free : Nat
deriving DecidableEq, Repr

/-- The response struct the `health` handler constructs.  `HealthResponse` is
referenced but not declared anywhere in the source; its fields are read off
the struct literal inside `health` (main.rs lines 84-90).  `cpu_usage` and
`uptime` are numeric readings carried through without arithmetic. -/
structure HealthResponse where
  status : String
  last_synced_at : Int
  memory_usage : MemInfo
  cpu_usage : Int
  uptime : Int
deriving DecidableEq, Repr

/-- One snapshot of the three fallible `sys_info` reads the `health` handler
performs; `none` models the read returning an error. -/
structure SysInfoSnapshot where
  mem_info : Option MemInfo
  cpu_usage : Option Int
  uptime : Option Int
deriving DecidableEq, Repr

/-- Possible outcomes of a GET /health call: an HTTP 200 with a body, an
HTTP 503, or a handler panic (a Rust `.unwrap()` on an error value, which
aborts the request without producing either status). -/
inductive HealthResult where
  | ok (response : HealthResponse) : HealthResult
  | serviceUnavailable : HealthResult
  | crash : HealthResult
deriving DecidableEq, Repr

/-- Embedding of `health` (main.rs lines 77-90): the three `sys_info` reads
are each followed by `.unwrap()`, so any failed read panics the handler; on
success the response carries status "OK", the clock reading, and the three
metric values. -/
def health (current_time : Int) (sys : SysInfoSnapshot) : HealthResult :=
  match sys.mem_info, sys.cpu_usage, sys.uptime with
  | some m, some c, some u =>
      HealthResult.ok
        { status := "OK"
          last_synced_at := current_time
          memory_usage := m
          cpu_usage := c
          uptime := u }
  | _, _, _ => HealthResult.crash

/-!
The sync engine of the specification's design sections (§2-§4).  The Rust
repository contains only the stub handlers above; the store, journal, merge
engine and coordinator exist only in the specification, so they are modelled
from its text here and flagged as such on every definition.
-/

/-- Modelled from the spec: the three record kinds of §3 (TimeEntry, Project,
Category). -/
inductive RecordKind where
  | timeEntry : RecordKind
  | project : RecordKind
  | category : RecordKind
deriving DecidableEq, Repr

/-- Modelled from the spec: the operation tag of a change, §3,
`operation ∈ {create, update, delete}`. -/
inductive Operation where
  | create : Operation
  | update : Operation
  | delete : Operation
deriving DecidableEq, Repr

/-- Modelled from the spec: a record held by the Record Store (§3, §4.1) —
unique id per kind, monotonically increasing revision, domain fields, a
tombstone flag, and the last-modified wall-clock timestamp together with the
id of the client whose change last won (the pair the §4.3 last-writer-wins
tie-break compares against). -/
structure StoredRecord where
  kind : RecordKind
  id : String
  revision : Nat
  fields : Json
  deleted : Bool
  timestamp : Int
  client_id : String

/-- Modelled from the spec: one Change Journal entry, §3 —
`(record_kind, record_id, revision, timestamp, operation)`.  Its sequence
number is not stored: the journal is kept oldest-first and the entry at
position `i` has sequence number `i + 1`, which makes the §4.2 contract
(strictly increasing, gapless) hold by construction. -/
structure JournalEntry where
  kind : RecordKind
  id : String
  revision : Nat
  timestamp : Int
  operation : Operation

/-- Modelled from the spec: one element of a ClientChangeSet, §3 and §6 —
`{kind, id, base_revision, operation, fields, client_timestamp}`. -/
structure ClientChange where
  kind : RecordKind
  id : String
  base_revision : Nat
  operation : Operation
  fields : Json
  client_timestamp : Int

/-- Modelled from the spec: the durable server state — the Record Store's
contents plus the Change Journal, oldest entry first (§2).  The journal's
current maximum sequence number is its length. -/
structure EngineState where
  store : List StoredRecord
  journal : List JournalEntry

/-- Modelled from the spec: the empty initial state ("store starts empty",
§8). -/
def EngineState.empty : EngineState := ⟨[], []⟩

/-- Modelled from the spec: `get(kind, id)` of the Record Store contract
(§4.1); `none` is NotFound. -/
def lookupRecord (store : List StoredRecord) (kind : RecordKind)
    (id : String) : Option StoredRecord :=
  store.find? (fun r => r.kind == kind && r.id == id)

/-- Modelled from the spec: the store update inside a successful `put`
(§4.1): the committed record replaces the copy with its (kind, id), or is
added if absent; ids are never removed (tombstoning only, §3). -/
def putRecord (store : List StoredRecord) (record : StoredRecord) :
    List StoredRecord :=
  match store with
  | [] => [record]
  | r :: rest =>
      if r.kind == record.kind && r.id == record.id then record :: rest
      else r :: putRecord rest record

/-- Modelled from the spec: `entries_after(cursor)` of the Change Journal
contract (§4.2) — all entries with sequence number > cursor, oldest first.
With sequence numbers derived from position (entry `i` has number `i + 1`),
these are exactly the entries from position `cursor` on. -/
def entries_after (journal : List JournalEntry) (cursor : Nat) :
    List JournalEntry :=
  journal.drop cursor

/-- Modelled from the spec: the sync-call error taxonomy of §7 reachable in
the sequential model (`ConcurrentConflictError` needs contention between
calls and `StorageError` a fallible backend, neither of which exists in a
pure single-call model). -/
inductive CoordError where
  | validation : CoordError
  | invalidWatermark : CoordError
  | staleClient : CoordError
deriving DecidableEq, Repr

/-- Modelled from the spec: committing one accepted change (§4.1 side
effect): the store is updated and exactly one journal entry is appended,
atomically.  A `delete` writes the tombstone flag and keeps the previous
fields when the record exists (§4.3: deletes are a write of the tombstone
flag); `create`/`update` write the submitted fields and clear the flag. -/
def commitAccepted (st : EngineState) (client_id : String) (c : ClientChange)
    (newRevision : Nat) : EngineState :=
  let prior := lookupRecord st.store c.kind c.id
  let newFields :=
    match c.operation, prior with
    | Operation.delete, some r => r.fields
    | _, _ => c.fields
  let newDeleted := c.operation == Operation.delete
  { store := putRecord st.store
      { kind := c.kind, id := c.id, revision := newRevision
        fields := newFields, deleted := newDeleted
        timestamp := c.client_timestamp, client_id := client_id }
    journal := st.journal ++
      [{ kind := c.kind, id := c.id, revision := newRevision
         timestamp := c.client_timestamp, operation := c.operation }] }

/-- Modelled from the spec: journaling a losing change without altering the
store (§4.3 step 4: "the losing change is still journaled ... but does not
alter stored fields").  The entry records the store's current revision. -/
def journalLosing (st : EngineState) (c : ClientChange)
    (currentRevision : Nat) : EngineState :=
  { store := st.store
    journal := st.journal ++
      [{ kind := c.kind, id := c.id, revision := currentRevision
         timestamp := c.client_timestamp, operation := c.operation }] }

/-- Modelled from the spec: the Merge Engine's decision for one incoming
change (§4.3).  A record absent from the store has current revision 0, so a
`create` against an empty slot (base_revision = 0) gets initial revision 1
(step 2) and a claimed base_revision above the current one is
`StaleClientError` (step 5).  On `base_revision = R` the change is applied
with revision R+1 (step 3); on `base_revision < R` last-writer-wins by
`(client_timestamp, client_id)` decides (step 4). -/
def merge_one (client_id : String) (st : EngineState) (c : ClientChange) :
    Except CoordError EngineState :=
  match lookupRecord st.store c.kind c.id with
  | none =>
      if c.base_revision = 0 then Except.ok (commitAccepted st client_id c 1)
      else Except.error CoordError.staleClient
  | some r =>
      if c.base_revision = r.revision then
        Except.ok (commitAccepted st client_id c (r.revision + 1))
      else if c.base_revision < r.revision then
        if r.timestamp < c.client_timestamp ∨
            (r.timestamp = c.client_timestamp ∧ r.client_id < client_id) then
          Except.ok (commitAccepted st client_id c (r.revision + 1))
        else
          Except.ok (journalLosing st c r.revision)
      else Except.error CoordError.staleClient

/-- Modelled from the spec: the Merging stage over a full ClientChangeSet,
in submitted order (§4.3, §4.4); the first `StaleClientError` aborts the
whole call. -/
def merge_all (client_id : String) (st : EngineState) :
    List ClientChange → Except CoordError EngineState
  | [] => Except.ok st
  | c :: rest =>
      match merge_one client_id st c with
      | Except.error e => Except.error e
      | Except.ok st' => merge_all client_id st' rest

/-- Modelled from the spec: one element of the returned delta, a
"Record-with-operation" (§6): the record's current state plus a flag for the
client's benefit (§4.4 DeltaComputing). -/
structure DeltaRecord where
  kind : RecordKind
  id : String
  revision : Nat
  fields : Json
  deleted : Bool
  operation : Operation

/-- Modelled from the spec: the flag attached to a materialized delta record
(§4.4): `delete` for a tombstoned record, `create` when the window since the
cursor contains the record's creation (the client has never seen it), else
`update`. -/
def deltaFlag (window : List JournalEntry) (r : StoredRecord) : Operation :=
  if r.deleted then Operation.delete
  else if window.any (fun e =>
      e.kind == r.kind && e.id == r.id && e.operation == Operation.create) then
    Operation.create
  else Operation.update

/-- Modelled from the spec: the DeltaComputing stage (§4.4) —
`entries_after(cursor)` on the updated journal, materializing the current
state of each touched record, deduplicated so a record changed several times
appears once. -/
def computeDelta (st : EngineState) (cursor : Nat) : List DeltaRecord :=
  let window := entries_after st.journal cursor
  let keys := (window.map (fun e => (e.kind, e.id))).dedup
  keys.filterMap (fun k =>
    (lookupRecord st.store k.fst k.snd).map (fun r =>
      { kind := r.kind, id := r.id, revision := r.revision
        fields := r.fields, deleted := r.deleted
        operation := deltaFlag window r }))

/-- Modelled from the spec: a successful sync response,
`{new_watermark, changes}` (§6). -/
structure SyncOutcome where
  new_watermark : Nat
  changes : List DeltaRecord

/-- Modelled from the spec: the Sync Coordinator's stages (§4.4), strictly
sequential — Received (ValidationError on a negative watermark), Validating
(InvalidWatermarkError when the cursor is ahead of the journal's maximum
sequence number), Merging, Committing (the returned state), DeltaComputing,
Responding (`new_watermark` = the journal's current maximum sequence
number).  Any error leaves the state uncommitted: the caller keeps `st`. -/
def sync_call (st : EngineState) (client_id : String) (last_synced_at : Int)
    (changes : List ClientChange) :
    Except CoordError (EngineState × SyncOutcome) :=
  if last_synced_at < 0 then Except.error CoordError.validation
  else if st.journal.length < last_synced_at.toNat then
    Except.error CoordError.invalidWatermark
  else
    match merge_all client_id st changes with
    | Except.error e => Except.error e
    | Except.ok st' =>
        Except.ok (st', { new_watermark := st'.journal.length
                          changes := computeDelta st' last_synced_at.toNat })

/-!
Concrete inputs used by counterexamples and witnesses.
-/

/-- A request whose submitted cursor is 0 and whose payload is all-null. -/
def nullRequest : SyncRequest := ⟨0, Json.null, Json.null, Json.null⟩

/-- A request with a negative submitted cursor. -/
def negativeCursorRequest : SyncRequest := ⟨-3, Json.null, Json.null, Json.null⟩

/-- A sample `sys_info::mem_info()` reading. -/
def memInfoSample : MemInfo := ⟨16384, 1024, 2048, 64, 512, 4096, 4096⟩

/-- A snapshot in which all three metric reads succeed. -/
def sysAllOk : SysInfoSnapshot := ⟨some memInfoSample, some 12, some 3600⟩

/-- A snapshot in which all three metric reads fail. -/
def sysAllFail : SysInfoSnapshot := ⟨none, none, none⟩

/-- The response `health` constructs from `sysAllOk` at clock reading 7. -/
def healthOkSample : HealthResponse := ⟨"OK", 7, memInfoSample, 12, 3600⟩

/-- The creating change of the spec's §8 first scenario: client A creates
TimeEntry `t1` with base_revision 0. -/
def t1Create : ClientChange :=
  ⟨RecordKind.timeEntry, "t1", 0, Operation.create, Json.null, 100⟩

/-- The engine state after the creating call of the §8 first scenario. -/
def t1State : EngineState :=
  { store := [⟨RecordKind.timeEntry, "t1", 1, Json.null, false, 100, "A"⟩]
    journal := [⟨RecordKind.timeEntry, "t1", 1, 100, Operation.create⟩] }

/-- The delta record materializing `t1` for a client at cursor 0. -/
def t1Delta : DeltaRecord :=
  ⟨RecordKind.timeEntry, "t1", 1, Json.null, false, Operation.create⟩

/-!
The claims.
-/

/-- C1: for every well-formed POST /sync request, the response body's
`time_entries`, `projects` and `categories` fields are exactly the values
submitted in the request — `post_sync` echoes submitted data back
unchanged. -/
theorem C1_post_sync_echoes_data (t : Int) (p : SyncRequest) :
    (post_sync t p).time_entries = p.time_entries ∧
    (post_sync t p).projects = p.projects ∧
    (post_sync t p).categories = p.categories :=
  ⟨rfl, rfl, rfl⟩

/-- C2: the `last_synced_at` of every POST /sync response is the freshly
obtained server clock reading, not the value the client submitted: it equals
the handler's `current_time` for every payload, so whenever the submitted
cursor differs from the clock it differs from the response's cursor. -/
theorem C2_timestamp_refreshed (t : Int) (p : SyncRequest) :
    (post_sync t p).last_synced_at = t ∧
    (p.last_synced_at ≠ t → (post_sync t p).last_synced_at ≠ p.last_synced_at) :=
  ⟨rfl, fun hne heq => hne heq.symm⟩

/-- Witness for C2 at a concrete input: clock reading 1 against a submitted
cursor 0. -/
theorem C2_timestamp_refreshed_witness :
    (post_sync 1 nullRequest).last_synced_at = 1 ∧
    (post_sync 1 nullRequest).last_synced_at ≠ nullRequest.last_synced_at :=
  ⟨(C2_timestamp_refreshed 1 nullRequest).1,
   (C2_timestamp_refreshed 1 nullRequest).2 (by decide)⟩

/-- C8: the data fields of the POST /sync response do not depend on the
submitted `last_synced_at`: two requests equal except possibly in that field
produce responses with equal `time_entries`, `projects` and `categories`. -/
theorem C8_data_independent_of_cursor (t : Int) (p q : SyncRequest)
    (hte : p.time_entries = q.time_entries)
    (hpr : p.projects = q.projects)
    (hca : p.categories = q.categories) :
    (post_sync t p).time_entries = (post_sync t q).time_entries ∧
    (post_sync t p).projects = (post_sync t q).projects ∧
    (post_sync t p).categories = (post_sync t q).categories :=
  ⟨hte, hpr, hca⟩

/-- Witness for C8 at concrete inputs: two all-null requests whose submitted
cursors are 0 and -3. -/
theorem C8_data_independent_of_cursor_witness :
    (post_sync 9 nullRequest).time_entries =
      (post_sync 9 negativeCursorRequest).time_entries ∧
    (post_sync 9 nullRequest).projects =
      (post_sync 9 negativeCursorRequest).projects ∧
    (post_sync 9 nullRequest).categories =
      (post_sync 9 negativeCursorRequest).categories :=
  C8_data_independent_of_cursor 9 nullRequest negativeCursorRequest rfl rfl rfl

/-- C9: GET /sync always answers with `Null` for all three data fields —
the handler consults no state (none exists), so no prior POST can influence
it — and only its `last_synced_at`, the current server time, varies. -/
theorem C9_get_sync_always_null (t : Int) :
    (get_sync t).time_entries = Json.null ∧
    (get_sync t).projects = Json.null ∧
    (get_sync t).categories = Json.null ∧
    (get_sync t).last_synced_at = t :=
  ⟨rfl, rfl, rfl, rfl⟩

/-- C10: for every deserialized SyncRequest the `post_sync` handler is total
and succeeds — it leaves the (trivial) server state unchanged, produces the
echo response, and returns no error of the specification's taxonomy. -/
theorem C10_post_sync_total (st : StubServerState) (t : Int) (p : SyncRequest) :
    (post_sync_full st t p).1 = st ∧
    (post_sync_full st t p).2 = Except.ok (post_sync t p) ∧
    ∀ e : SyncError, (post_sync_full st t p).2 ≠ Except.error e :=
  ⟨rfl, rfl, fun _ h => Except.noConfusion h⟩

/-- Witness for C10 at a concrete input, with the error quantifier
discharged at `ValidationError`. -/
theorem C10_post_sync_total_witness :
    (post_sync_full () 4 nullRequest).1 = () ∧
    (post_sync_full () 4 nullRequest).2 = Except.ok (post_sync 4 nullRequest) ∧
    (post_sync_full () 4 nullRequest).2 ≠ Except.error SyncError.validation :=
  ⟨(C10_post_sync_total () 4 nullRequest).1,
   (C10_post_sync_total () 4 nullRequest).2.1,
   (C10_post_sync_total () 4 nullRequest).2.2 SyncError.validation⟩

/-- C3 counterexample: when all three system-metric reads fail, the `health`
handler panics on `.unwrap()` — the outcome is a crash, not the HTTP 503
response the claim requires. -/
theorem C3_counterexample_health_crashes :
    health 0 sysAllFail = HealthResult.crash ∧
    HealthResult.crash ≠ HealthResult.serviceUnavailable :=
  ⟨rfl, fun h => HealthResult.noConfusion h⟩

/-- C3 amended: GET /health returns a 200 response (status "OK", the current
server time, and the metric readings) whenever all three system-metric reads
succeed; when any read fails the handler panics — it never produces a 503. -/
theorem C3_amended_health_outcomes (t : Int) (sys : SysInfoSnapshot) :
    health t sys ≠ HealthResult.serviceUnavailable ∧
    (health t sys = HealthResult.crash ↔
      sys.mem_info = none ∨ sys.cpu_usage = none ∨ sys.uptime = none) ∧
    ∀ r, health t sys = HealthResult.ok r →
      r.status = "OK" ∧ r.last_synced_at = t := by
  obtain ⟨m, c, u⟩ := sys
  cases m <;> cases c <;> cases u <;> simp [health]

/-- Witness for C3 amended at concrete inputs: an all-successful snapshot at
clock reading 7, and an all-failing snapshot. -/
theorem C3_amended_health_outcomes_witness :
    health 7 sysAllOk ≠ HealthResult.serviceUnavailable ∧
    (healthOkSample.status = "OK" ∧ healthOkSample.last_synced_at = 7) ∧
    health 0 sysAllFail = HealthResult.crash :=
  ⟨(C3_amended_health_outcomes 7 sysAllOk).1,
   (C3_amended_health_outcomes 7 sysAllOk).2.2 healthOkSample rfl,
   (C3_amended_health_outcomes 0 sysAllFail).2.1.mpr (Or.inl rfl)⟩

/-- C4 counterexample: the serde-derived wire format of the stub has no
`changes` field in the request and no `new_watermark` field in the response,
and a body of the claimed shape `{last_synced_at, changes}` is rejected by
deserialization (a missing declared field is a serde error, surfaced as
HTTP 400). -/
theorem C4_counterexample_body_shape :
    "changes" ∉ syncRequestFieldNames ∧
    "new_watermark" ∉ syncResponseFieldNames ∧
    deserializeSyncRequest (Json.obj
      [("last_synced_at", Json.num 0), ("changes", Json.arr [])]) = none :=
  ⟨by decide, by decide, rfl⟩

/-- C4 amended: the request body is `{last_synced_at: i64, time_entries,
projects, categories}` — separate per-kind collections, no single `changes`
array — and the response body carries the same four field names, keyed by
`last_synced_at` rather than `new_watermark`; a request with exactly those
four fields deserializes to the corresponding `SyncRequest`. -/
theorem C4_amended_body_shape (t : Int) (te pr ca : Json) :
    syncRequestFieldNames =
      ["last_synced_at", "time_entries", "projects", "categories"] ∧
    syncResponseFieldNames =
      ["last_synced_at", "time_entries", "projects", "categories"] ∧
    "new_watermark" ∉ syncResponseFieldNames ∧
    deserializeSyncRequest (Json.obj
      [("last_synced_at", Json.num t), ("time_entries", te),
       ("projects", pr), ("categories", ca)]) = some ⟨t, te, pr, ca⟩ :=
  ⟨rfl, rfl, by decide, rfl⟩

/-- C5 counterexample: a request whose `last_synced_at` is -1 deserializes
successfully (`i64` admits negatives and no validation exists) and is then
processed successfully by `post_sync` — contradicting the claim that no
negative-cursor request is processed. -/
theorem C5_counterexample_negative_accepted :
    deserializeSyncRequest (Json.obj
      [("last_synced_at", Json.num (-1)), ("time_entries", Json.null),
       ("projects", Json.null), ("categories", Json.null)]) =
      some ⟨-1, Json.null, Json.null, Json.null⟩ ∧
    (post_sync_full () 5 ⟨-1, Json.null, Json.null, Json.null⟩).2 =
      Except.ok (post_sync 5 ⟨-1, Json.null, Json.null, Json.null⟩) :=
  ⟨rfl, rfl⟩

/-- C5 amended: a POST /sync request with a negative `last_synced_at` is
accepted and processed exactly like any other — the handler echoes the
payload with a fresh timestamp, raises no `ValidationError` (nor any other
error), and touches no state. -/
theorem C5_amended_negative_processed (st : StubServerState) (t : Int)
    (p : SyncRequest) (_hneg : p.last_synced_at < 0) :
    (post_sync_full st t p).1 = st ∧
    (post_sync_full st t p).2 = Except.ok
      { last_synced_at := t, time_entries := p.time_entries
        projects := p.projects, categories := p.categories } ∧
    ∀ e : SyncError, (post_sync_full st t p).2 ≠ Except.error e :=
  ⟨rfl, rfl, fun _ h => Except.noConfusion h⟩

/-- Witness for C5 amended at a concrete input: the all-null request with
submitted cursor -3. -/
theorem C5_amended_negative_processed_witness :
    negativeCursorRequest.last_synced_at < 0 ∧
    (post_sync_full () 5 negativeCursorRequest).2 = Except.ok
      { last_synced_at := 5, time_entries := negativeCursorRequest.time_entries
        projects := negativeCursorRequest.projects
        categories := negativeCursorRequest.categories } :=
  ⟨by decide,
   (C5_amended_negative_processed () 5 negativeCursorRequest (by decide)).2.1⟩

/-- C6: the spec's first scenario (§8), settled against the spec-modelled
engine: from the empty store, client A's create of TimeEntry `t1` with
base_revision 0 and watermark 0 yields new_watermark 1 and stores `t1` at
revision 1; client B's subsequent sync at watermark 0 receives a delta
containing `t1`. -/
theorem C6_first_create_scenario :
    sync_call EngineState.empty "A" 0 [t1Create] =
      Except.ok (t1State, { new_watermark := 1, changes := [t1Delta] }) ∧
    (lookupRecord t1State.store RecordKind.timeEntry "t1").map
      StoredRecord.revision = some 1 ∧
    sync_call t1State "B" 0 [] =
      Except.ok (t1State, { new_watermark := 1, changes := [t1Delta] }) :=
  ⟨rfl, rfl, rfl⟩

/-- A successful sync call's `new_watermark` is the committed journal's
maximum sequence number, i.e. its length. -/
theorem sync_ok_new_watermark {st st' : EngineState} {cid : String} {w : Int}
    {chs : List ClientChange} {out : SyncOutcome}
    (h : sync_call st cid w chs = Except.ok (st', out)) :
    out.new_watermark = st'.journal.length := by
  unfold sync_call at h
  by_cases h1 : w < 0
  · rw [if_pos h1] at h
    exact Except.noConfusion h
  rw [if_neg h1] at h
  by_cases h2 : st.journal.length < w.toNat
  · rw [if_pos h2] at h
    exact Except.noConfusion h
  rw [if_neg h2] at h
  split at h
  · exact Except.noConfusion h
  · injection h with hpair
    injection hpair with ha hb
    subst ha
    subst hb
    rfl

/-- Syncing with no pending changes at a watermark equal to the journal's
current maximum sequence number changes nothing and returns an empty
delta. -/
theorem sync_call_at_max_watermark (st : EngineState) (cid : String) :
    sync_call st cid (Int.ofNat st.journal.length) [] =
      Except.ok (st, { new_watermark := st.journal.length, changes := [] }) := by
  unfold sync_call
  have h0 : ¬ Int.ofNat st.journal.length < 0 :=
    Int.not_lt.mpr (Int.ofNat_nonneg st.journal.length)
  have hc : (Int.ofNat st.journal.length).toNat = st.journal.length := rfl
  rw [if_neg h0, hc, if_neg (lt_irrefl st.journal.length)]
  simp [merge_all, computeDelta, entries_after, List.drop_length]

/-- C7: round-trip, settled against the spec-modelled engine — after any
successful sync call returns `(new_watermark, changes)` and the client
applies the delta locally, an immediate re-sync submitted with that
`new_watermark` and no pending local changes succeeds with an empty
delta (and the same watermark), leaving the server state unchanged. -/
theorem C7_round_trip (st st' : EngineState) (cid cid' : String) (w : Int)
    (chs : List ClientChange) (out : SyncOutcome)
    (h : sync_call st cid w chs = Except.ok (st', out)) :
    sync_call st' cid' (Int.ofNat out.new_watermark) [] =
      Except.ok (st', { new_watermark := out.new_watermark, changes := [] }) := by
  have hw := sync_ok_new_watermark h
  rw [hw]
  exact sync_call_at_max_watermark st' cid'

/-- Witness for C7 at a concrete input: an initial empty-changes sync from
the empty store, followed by the re-sync at the returned watermark 0. -/
theorem C7_round_trip_witness :
    sync_call EngineState.empty "B" (Int.ofNat 0) [] =
      Except.ok (EngineState.empty, { new_watermark := 0, changes := [] }) :=
  C7_round_trip EngineState.empty EngineState.empty "A" "B" 0 []
    { new_watermark := 0, changes := [] } rfl
